import Mathlib

/-!
Shallow embedding of the value-marshaling core of `sos_julia/kernel.py`
(the sos-julia language module): the host→guest encoder `_julia_repr`,
the column-homogeneity test `homogeneous_type`, the lazy package loader
`load`, the `get_vars` renaming rule and the `put_vars` import loop.
Python values are modelled by the inductive `PyObj`; machine-level float
text (`repr`/`str` output) is carried as an opaque string payload, since
the code never computes with it, only concatenates it.
-/

set_option autoImplicit false
set_option maxRecDepth 8192

namespace SosJulia

/-- A host-side (Python) runtime value, restricted to the shapes
`_julia_repr` (kernel.py lines 218-298) dispatches on.  Numeric payloads
are carried as their `repr`/`str` text because the source only ever
concatenates them into guest source text. -/
inductive PyObj where
  | pyBool (b : Bool)
  | pyInt (n : Int)
  | pyFloat (r : String)
  | pyStr (s : String)
  | pyComplex (re im : String)
  | pySeq (xs : List PyObj)
  | pyNone
  | pyDict (kvs : List (String × PyObj))
  | pySet (xs : List PyObj)
  | npSmallNum (kind : String) (r : String)
  | npFloat64 (r : String)
  | npMatrix (rows : List (List PyObj))
  | npArray (xs : List PyObj)
  | pyDataFrame (cols : List (String × List PyObj))
  | pySeries (vals : List PyObj) (index : List PyObj)
  | pyOther (srepr : String)

/-- The exact runtime class of a `PyObj`, as Python's `type()` reports it.
Unknown host types are collapsed into one tag (no claim inspects them). -/
inductive PyType where
  | tBool
  | tInt
  | tFloat
  | tStr
  | tComplex
  | tSeq
  | tNone
  | tDict
  | tSet
  | tNpSmall (kind : String)
  | tNpF64
  | tMatrix
  | tNdarray
  | tDF
  | tSeries
  | tOther
deriving DecidableEq

/-- Python `type(x)`: the exact class, so `type(True)` is `bool`, not `int`,
and `type(numpy.float64(..))` is `numpy.float64`, not `float`. -/
def typeOf : PyObj → PyType
  | .pyBool _ => .tBool
  | .pyInt _ => .tInt
  | .pyFloat _ => .tFloat
  | .pyStr _ => .tStr
  | .pyComplex _ _ => .tComplex
  | .pySeq _ => .tSeq
  | .pyNone => .tNone
  | .pyDict _ => .tDict
  | .pySet _ => .tSet
  | .npSmallNum k _ => .tNpSmall k
  | .npFloat64 _ => .tNpF64
  | .npMatrix _ => .tMatrix
  | .npArray _ => .tNdarray
  | .pyDataFrame _ => .tDF
  | .pySeries _ _ => .tSeries
  | .pyOther _ => .tOther

/-- Python's subclass lattice restricted to the modelled classes:
`bool` is a subclass of `int`, and `numpy.float64` is a subclass of
`float`; every class is a subclass of itself. -/
def pySubclass (s t : PyType) : Bool :=
  s == t || (s == .tBool && t == .tInt) || (s == .tNpF64 && t == .tFloat)

/-- Python `isinstance(x, t)` over the modelled classes. -/
def isinst (x : PyObj) (t : PyType) : Bool :=
  pySubclass (typeOf x) t

/-- kernel.py lines 15-20, `homogeneous_type(seq)`.  `none` models the
uncaught `StopIteration` that `next(iseq)` raises on an empty sequence.
The first branch tests `type(first) in (int, float)` (exact class), while
the element tests use `isinstance`, which admits `bool` under `int`. -/
def homogeneous_type (seq : List PyObj) : Option Bool :=
  match seq with
  | [] => none
  | x :: rest =>
    let first_type := typeOf x
    if first_type == .tInt || first_type == .tFloat then
      some (rest.all fun y => isinst y .tInt || isinst y .tFloat)
    else
      some (rest.all fun y => isinst y first_type)

example : homogeneous_type [.pyBool true, .pyInt 1] = some false := by decide
example : homogeneous_type [.pyInt 1, .pyBool true] = some true := by decide
example : homogeneous_type [] = none := rfl
example : homogeneous_type [.pyStr "a", .pyStr "b"] = some true := by decide

/-- kernel.py lines 23-51, `julia_install_package`.  The snippet bodies
submitted to `run_cell` are opaque to every claim, so the dictionary is
modelled by its key set and an install event is recorded below by the
package name that selects the snippet. -/
def julia_install_package : List String := ["feather", "namedarray", "dataframes"]

/-- Observable outcome of one `sos_Julia.load` call: the returned Bool,
the session's `self.loaded` set afterwards, the `run_cell` install
submissions (by package name) and the `warn` messages it issued. -/
structure LoadResult where
  ok : Bool
  loaded : List String
  installs : List String
  warnings : List String
deriving DecidableEq

/-- kernel.py lines 197-208, `sos_Julia.load(package)`.  `loaded` is the
session's `self.loaded` set, modelled as a list without duplicates being
relevant (only membership is ever consulted). -/
def load (loaded : List String) (package : String) : LoadResult :=
  if package ∈ loaded then
    ⟨true, loaded, [], []⟩
  else if package ∈ julia_install_package then
    ⟨true, package :: loaded, [package], []⟩
  else
    ⟨false, loaded, [], ["Install of package " ++ package ++ " is not supported."]⟩

example : load [] "feather" = ⟨true, ["feather"], ["feather"], []⟩ := rfl
example : load ["feather"] "feather" = ⟨true, ["feather"], [], []⟩ := rfl
example : (load [] "ggplot").ok = false := rfl

/-- The pieces of ambient state `_julia_repr` consults: whether
`import feather` succeeds (lines 245-249, 262-266), the fresh temporary
file name produced by `tempfile.NamedTemporaryFile(...).name`, and
whether `feather.write_dataframe` succeeds on a given columnar payload.
The `version=1` retry on `TypeError` (lines 273-277, 284-288) is folded
into one success predicate, since both calls write the same data. -/
structure Env where
  featherAvailable : Bool
  tmpname : String
  writeOk : List (String × List PyObj) → Bool

/-- The exceptions the encoder can propagate: the two deliberate
`UsageError` raises, an uncaught `feather.write_dataframe` failure, and
the `StopIteration` that `homogeneous_type` raises on an empty column. -/
inductive JErr where
  | usageError (msg : String)
  | writeError
  | stopIteration
deriving DecidableEq

/-- Message of the `UsageError` raised at lines 248-249 (two adjacent
string literals in the source, hence no space before `See`). -/
def matrix_feather_msg : String :=
  "The feather-format module is required to pass numpy matrix as julia matrix(array)See https://github.com/wesm/feather/tree/master/python for details."

/-- Message of the `UsageError` raised at lines 265-266. -/
def dataframe_feather_msg : String :=
  "The feather-format module is required to pass pandas DataFrame as julia.DataFramesSee https://github.com/wesm/feather/tree/master/python for details."

/-- Models the builtin `str(x)` for the scalar shapes that occur as table
cells.  `str` of container shapes is rendered coarsely (no claim depends
on that text, only on the fact that coercion produces a `pyStr`). -/
def py_str : PyObj → String
  | .pyBool b => if b then "True" else "False"
  | .pyInt n => toString n
  | .pyFloat r => r
  | .pyStr s => s
  | .pyComplex re im => "(" ++ re ++ "+" ++ im ++ "j)"
  | .pyNone => "None"
  | .npSmallNum _ r => r
  | .npFloat64 r => r
  | .pySeq _ => "[...]"
  | .pyDict _ => "\x7b...\x7d"
  | .pySet _ => "\x7b...\x7d"
  | .npMatrix _ => "[[...]]"
  | .npArray _ => "[...]"
  | .pyDataFrame _ => "<DataFrame>"
  | .pySeries _ _ => "<Series>"
  | .pyOther srepr => srepr

/-- Line 283: `data[c] = [str(x) for x in data[c]]` applied cell-wise. -/
def coerce_to_text (x : PyObj) : PyObj := .pyStr (py_str x)

/-- Lines 281-283 applied to one column: a column failing
`homogeneous_type` is replaced by its `str`-coerced cells; a homogeneous
column is left untouched; an empty column propagates the uncaught
`StopIteration` (modelled as `none`). -/
def coerce_column (c : List PyObj) : Option (List PyObj) :=
  match homogeneous_type c with
  | none => none
  | some true => some c
  | some false => some (c.map coerce_to_text)

/-- Lines 281-283, the repair pass over all columns of the frame. -/
def repair_columns (cols : List (String × List PyObj)) :
    Option (List (String × List PyObj)) :=
  cols.mapM fun nc => (coerce_column nc.2).map fun c => (nc.1, c)

/-- Line 291 (and line 258 for matrices): the reload expression naming
the staged file. -/
def feather_read_expr (env : Env) : String :=
  "Feather.read(\"" ++ env.tmpname ++ "\")"

/-- kernel.py lines 261-291, the `pandas.DataFrame` branch of
`_julia_repr`.  Returns the reload expression together with the frame
actually handed to the successful `feather.write_dataframe` call (the
observable effect of the staged write); `data = obj.copy()` is a pure
copy, and the raw-index warning of line 272 is not tracked. -/
def julia_repr_dataframe (env : Env) (cols : List (String × List PyObj)) :
    Except JErr (String × List (String × List PyObj)) :=
  if env.featherAvailable = false then
    .error (.usageError dataframe_feather_msg)
  else if env.writeOk cols then
    .ok (feather_read_expr env, cols)
  else
    match repair_columns cols with
    | none => .error .stopIteration
    | some repaired =>
      if env.writeOk repaired then .ok (feather_read_expr env, repaired)
      else .error .writeError

/-- Lines 252-253 and 257: `pandas.DataFrame(obj, columns=map(str,
range(obj.shape[1])))` — the matrix as a frame whose columns are named
by their stringified index. -/
def matrix_to_df (rows : List (List PyObj)) : List (String × List PyObj) :=
  (List.range (rows.headD []).length).map fun j =>
    (toString j, rows.map fun r => r.getD j .pyNone)

/-- Models Python `repr()` of a text value, as used for the line-298
placeholder: quote-wrapping (escape refinements of `repr` are irrelevant
to the placeholder claims). -/
def py_repr_str (s : String) : String := "\x27" ++ s ++ "\x27"

mutual

/-- kernel.py lines 218-298, `sos_Julia._julia_repr(obj)`.  The match is
by constructor, reproducing the outcome of the source's `isinstance`
ladder under Python's subclass rules; in particular `numpy.float64` is a
subclass of `float`, so the `isinstance(obj, (int, float))` test at line
221 already captures it and returns `repr(obj)` — the dedicated branch
at lines 242-243 is unreachable (and, if reached, would raise
`TypeError`, since it concatenates `str` with a `numpy.float64`). -/
def _julia_repr (env : Env) : PyObj → Except JErr String
  | .pyBool b => .ok (if b then "true" else "false")
  | .pyInt n => .ok (toString n)
  | .pyFloat r => .ok r
  | .pyStr s => .ok ("\"\"\"" ++ s ++ "\"\"\"")
  | .pyComplex re im => .ok ("complex(" ++ re ++ "," ++ im ++ ")")
  | .pySeq xs =>
    if xs.isEmpty then .ok "[]"
    else do
      let rs ← julia_repr_list env xs
      .ok ("[" ++ String.intercalate "," rs ++ "]")
  | .pyNone => .ok "NaN"
  | .pyDict kvs => do
    let ps ← julia_repr_pairs env kvs
    .ok ("Dict(" ++ String.intercalate "," ps ++ ")")
  | .pySet xs => do
    let rs ← julia_repr_list env xs
    .ok ("Set([" ++ String.intercalate "," rs ++ "])")
  | .npSmallNum _ r => .ok r
  | .npFloat64 r => .ok r
  | .npMatrix rows =>
    if env.featherAvailable = false then .error (.usageError matrix_feather_msg)
    else if env.writeOk (matrix_to_df rows) then
      .ok ("convert(Matrix, Feather.read(\"" ++ env.tmpname ++ "\"))")
    else .error .writeError
  | .npArray xs => do
    let rs ← julia_repr_list env xs
    .ok ("[" ++ String.intercalate "," rs ++ "]")
  | .pyDataFrame cols => (julia_repr_dataframe env cols).map Prod.fst
  | .pySeries vals index => do
    let rs ← julia_repr_list env vals
    let inds ← julia_repr_list env index
    .ok ((("NamedArray([" ++ String.intercalate "," rs ++ "],([" ++
      String.intercalate "," inds ++ "],))")).replace "\x27" "\"")
  | .pyOther srepr => .ok (py_repr_str ("Unsupported datatype " ++ srepr))

/-- Element-wise recursion of `','.join(self._julia_repr(x) for x in obj)`
(lines 231, 237, 260, 295-296); an exception in any element propagates. -/
def julia_repr_list (env : Env) : List PyObj → Except JErr (List String)
  | [] => .ok []
  | x :: xs => do
    let r ← _julia_repr env x
    let rs ← julia_repr_list env xs
    .ok (r :: rs)

/-- Line 235: the generator of `f'"{x}" => {self._julia_repr(y)}'` pairs. -/
def julia_repr_pairs (env : Env) : List (String × PyObj) → Except JErr (List String)
  | [] => .ok []
  | (k, v) :: xs => do
    let r ← _julia_repr env v
    let rs ← julia_repr_pairs env xs
    .ok (("\"" ++ k ++ "\" => " ++ r) :: rs)

end

/-- Python `s.startswith(pre)`, character-based. -/
def py_startswith (s pre : String) : Bool :=
  pre.toList.isPrefixOf s.toList

/-- Python `s[n:]`, character-based slicing. -/
def py_drop (s : String) (n : Nat) : String :=
  String.mk (s.toList.drop n)

/-- Python `s.endswith(suf)`, character-based. -/
def py_endswith (s suf : String) : Bool :=
  suf.toList.isSuffixOf s.toList

/-- Helper for `py_split`: split a character list at every separator. -/
def split_chars (c : Char) : List Char → List (List Char)
  | [] => [[]]
  | x :: xs =>
    let r := split_chars c xs
    if x == c then [] :: r
    else
      match r with
      | [] => [[x]]
      | h :: t => (x :: h) :: t

/-- Python `s.split(c)` for a one-character separator. -/
def py_split (s : String) (c : Char) : List String :=
  (split_chars c s.toList).map String.mk

example : py_split "a:b:c" ':' = ["a", "b", "c"] := by decide
example : py_split "ab" ':' = ["ab"] := by decide

/-- Python truthiness of an optional string parameter (`if as_var:` /
`as_var if as_var else item`): `None` and the empty string are falsy. -/
def str_truthy : Option String → Bool
  | none => false
  | some s => !(s == "")

/-- kernel.py lines 300-308: the guest-side name chosen by `get_vars`
for one variable, together with whether the line-305 warning fired.
With a truthy `as_var` the rename target wins; otherwise a leading
underscore is replaced by a period (`'.' + name[1:]`) with a warning;
any other name is bound unchanged. -/
def get_vars_newname (asVar : Option String) (name : String) : String × Bool :=
  if str_truthy asVar then (asVar.getD "", false)
  else if py_startswith name "_" then ("." ++ py_drop name 1, true)
  else (name, false)

example : get_vars_newname none "_x" = (".x", true) := by decide
example : get_vars_newname none "y" = ("y", false) := by decide
example : get_vars_newname (some "z") "_x" = ("z", false) := by decide

/-- Python `str.rstrip('"')`: drop trailing double quotes. -/
def rstrip_quotes (s : String) : String :=
  String.mk ((s.toList.reverse.dropWhile fun c => c == '"').reverse)

/-- kernel.py lines 336-337: recognize the `"SOS_JULIA_REQUIRE:<pkg>"`
sentinel and extract the package name via `expr.split(':')[1].rstrip('"')`. -/
def sentinel_package (expr : String) : Option String :=
  if py_startswith expr "\"SOS_JULIA_REQUIRE:" then
    some (rstrip_quotes ((py_split expr ':').getD 1 ""))
  else none

example : sentinel_package "\"SOS_JULIA_REQUIRE:feather\"" = some "feather" := by decide
example : sentinel_package "42" = none := by decide

/-- One iteration of the `while True` loop in `put_vars` (lines 326-341),
given the guest's response text for this attempt: a non-sentinel response
breaks with that expression; a sentinel response calls `load`, breaking
(with the sentinel still in `expr`) when `load` returns `False` and
looping otherwise.  `load`'s install/warning channels are projected away
here — the loop consults only the returned Bool and the loaded set. -/
inductive LoopOutcome where
  | brk (expr : String) (loaded : List String)
  | cont (loaded : List String)
deriving DecidableEq

def put_vars_loop_step (expr : String) (loaded : List String) : LoopOutcome :=
  match sentinel_package expr with
  | none => .brk expr loaded
  | some p =>
    let r := load loaded p
    if r.ok then .cont r.loaded else .brk expr r.loaded

/-- The `while True` loop of `put_vars` for one item, driven by the
stream of guest responses (`responses k` is the guest's answer to the
`k`-th `__julia_py_repr` call for this item).  The source loop has no
fuel; `none` here means the loop is still running after `fuel`
iterations, so `put_vars_loop responses st i fuel = none` for every
`fuel` exhibits non-termination. -/
def put_vars_loop (responses : Nat → String) :
    List String → Nat → Nat → Option (String × List String)
  | _, _, 0 => none
  | loaded, i, fuel + 1 =>
    match put_vars_loop_step (responses i) loaded with
    | .brk e st => some (e, st)
    | .cont st => put_vars_loop responses st (i + 1) fuel

/-- The collaborators `put_vars` consults: the guest's response stream
per item and per attempt (`get_response`, line 333, assumed total), and
the host-side double `eval` of a returned expression (line 351) —
`none` models any exception, including the `read_dataframe` import
failing. -/
structure PutEnv where
  responses : String → Nat → String
  evalExpr : String → Option PyObj

/-- Observable outcome of `put_vars`: the returned value (`none` models
Python's `None` failure sentinel, `some m` the result dict as an ordered
association list) and the warnings issued. -/
structure PutResult where
  result : Option (List (String × PyObj))
  warnings : List String

/-- Python `k in res` for the result dict. -/
def dict_has_key (m : List (String × PyObj)) (k : String) : Bool :=
  m.any fun kv => kv.1 == k

/-- Python `res[k] = v`: overwrite in place if the key exists, else
append (insertion order preserved). -/
def dict_insert (m : List (String × PyObj)) (k : String) (v : PyObj) :
    List (String × PyObj) :=
  if dict_has_key m k then m.map fun kv => if kv.1 == k then (k, v) else kv
  else m ++ [(k, v)]

/-- Line 351: the key a decoded value is stored under,
`as_var if as_var else item`. -/
def put_key (asVar : Option String) (item : String) : String :=
  if str_truthy asVar then asVar.getD "" else item

/-- Line 353's warning text (the `repr` quoting and the exception text
are not modelled). -/
def put_fail_msg (expr : String) : String := "Failed to evaluate " ++ expr

/-- kernel.py lines 324-355: the item loop of `put_vars`, threading the
session's loaded-package set, the result dict and the warning log.  The
outer `none` means some item's `while True` loop was still running after
`fuel` attempts; `some r` is the function's actual return. -/
def put_vars_go (env : PutEnv) (asVar : Option String) (fuel : Nat) :
    List String → List String → List (String × PyObj) → List String →
    Option PutResult
  | _, [], res, warns => some ⟨some res, warns⟩
  | loaded, item :: rest, res, warns =>
    match put_vars_loop (env.responses item) loaded 0 fuel with
    | none => none
    | some (expr, loaded') =>
      match env.evalExpr expr with
      | some v =>
        put_vars_go env asVar fuel loaded' rest
          (dict_insert res (put_key asVar item) v) warns
      | none => some ⟨none, warns ++ [put_fail_msg expr]⟩

/-- kernel.py lines 320-355, `sos_Julia.put_vars(items, as_var=...)`
(the `to_kernel` parameter is unused by the source).  An empty `items`
returns the empty dict at line 322. -/
def put_vars (env : PutEnv) (items : List String) (asVar : Option String)
    (fuel : Nat) : Option PutResult :=
  if items.isEmpty then some ⟨some [], []⟩
  else put_vars_go env asVar fuel [] items [] []

/-- Modelled from the spec: the guest-side escape processing that
"corrupts embedded quotes/backslashes" in naively quoted literals
(spec §4.2).  A triple-quoted literal built by verbatim wrapping is
immune to that processing for a given content only when the content
carries no escape introducer (backslash), no internal occurrence of the
closing delimiter `\x22\x22\x22`, and no quote adjacent to the closing
delimiter. -/
def escape_immune_content (s : String) : Bool :=
  !(s.toList.any fun c => c == '\\') &&
  !(decide (("\"\"\"".toList) <:+: s.toList)) &&
  !(py_endswith s "\"")

example : escape_immune_content "hello world" = true := by decide
example : escape_immune_content "C:\\temp" = false := by decide
example : escape_immune_content "a\"\"\"b" = false := by decide

/-- The shapes handled by inline (non-staged, non-recursive) branches of
`_julia_repr`: the scalar categories plus the line-298 catch-all. -/
def scalar_shape : PyObj → Bool
  | .pyBool _ => true
  | .pyInt _ => true
  | .pyFloat _ => true
  | .pyStr _ => true
  | .pyComplex _ _ => true
  | .pyNone => true
  | .npSmallNum _ _ => true
  | .npFloat64 _ => true
  | .pyOther _ => true
  | _ => false

/-- An environment in which `import feather` succeeds and every staged
write succeeds. -/
def env_default : Env := ⟨true, "tmp.feather", fun _ => true⟩

/-- An environment in which `import feather` raises `ImportError`. -/
def env_no_feather : Env := ⟨false, "tmp.feather", fun _ => true⟩

/- ------------------------------------------------------------------ -/
/- Claim theorems                                                      -/
/- ------------------------------------------------------------------ -/

/-- C1 (amended): a value whose runtime shape matches no known category
is encoded as the descriptive placeholder string of line 298 and never
as an error, and no scalar-shaped value makes the encoder raise; the
claim's universal "never raises" fails only at the staged shapes (see
the counterexample). -/
theorem c1_unknown_shape_placeholder :
    (∀ (env : Env) (s : String),
      _julia_repr env (.pyOther s) = .ok (py_repr_str ("Unsupported datatype " ++ s))) ∧
    (∀ (env : Env) (obj : PyObj), scalar_shape obj = true →
      ∃ t, _julia_repr env obj = .ok t) := by
  constructor
  · intro env s; rfl
  · intro env obj h
    cases obj <;> first
      | exact ⟨_, rfl⟩
      | simp [scalar_shape] at h

/-- C1 counterexample: exporting a `numpy.matrix` while the feather
module is unavailable raises `UsageError` (lines 245-249), so encoding
is not exception-free for every host-side value. -/
theorem c1_matrix_raises_usage_error :
    _julia_repr env_no_feather (.npMatrix [[.pyInt 1]]) =
      .error (.usageError matrix_feather_msg) := rfl

/-- C1 witness: the placeholder branch at a concrete unsupported value. -/
theorem c1_unknown_shape_placeholder_witness :
    scalar_shape (.pyOther "z") = true ∧
    ∃ t, _julia_repr env_default (.pyOther "z") = .ok t :=
  ⟨rfl, c1_unknown_shape_placeholder.2 env_default (.pyOther "z") rfl⟩

/-- C3: at a concrete `numpy.float64` input the encoder returns the
plain `repr` text, not a `Float64(...)`-wrapped literal: since
`numpy.float64` subclasses `float`, the `isinstance(obj, (int, float))`
test at line 221 captures the value first, leaving the dedicated branch
at lines 242-243 unreachable (and that branch would raise `TypeError`
anyway, concatenating `str` with a `numpy.float64`). -/
theorem c3_float64_not_wrapped :
    _julia_repr env_default (.npFloat64 "1.5") = .ok "1.5" ∧
    ("1.5" : String) ≠ "Float64(" ++ "1.5" ++ ")" :=
  ⟨rfl, by decide⟩

/-- C5 (amended): for every host string the encoder emits the string
wrapped verbatim in triple quotes with no escaping; that quoting is not
immune to the guest's escape processing for arbitrary content — only
content free of backslashes, internal triple quotes and a trailing
quote survives (see the counterexample). -/
theorem c5_triple_quote_verbatim (env : Env) (s : String) :
    _julia_repr env (.pyStr s) = .ok ("\"\"\"" ++ s ++ "\"\"\"") := rfl

/-- C5 counterexample: a backslash-bearing string is wrapped verbatim,
and its content is not immune to the guest's escape processing, so it
does not survive uncorrupted. -/
theorem c5_backslash_not_immune :
    _julia_repr env_default (.pyStr "C:\\temp") = .ok "\"\"\"C:\\temp\"\"\"" ∧
    escape_immune_content "C:\\temp" = false :=
  ⟨rfl, by decide⟩

example : escape_immune_content "abc" = true ∧
    _julia_repr env_default (.pyStr "abc") = .ok "\"\"\"abc\"\"\"" := ⟨by decide, rfl⟩

/-- C9: `homogeneous_type` raises on the empty sequence (the unguarded
`next(iseq)` — modelled as `none`) and returns `True` on every
one-element sequence. -/
theorem c9_empty_raises_singleton_true :
    homogeneous_type [] = none ∧ ∀ x : PyObj, homogeneous_type [x] = some true := by
  refine ⟨rfl, fun x => ?_⟩
  cases h : (typeOf x == .tInt || typeOf x == .tFloat) <;>
    simp [homogeneous_type, h]

/-- C7 counterexample: `bool` and numeric are compatible only when the
numeric element comes first — `type(True)` is `bool`, which is not `in
(int, float)`, so `[True, 1]` is judged inhomogeneous while `[1, True]`
is judged homogeneous (``isinstance(True, int)`` holds). -/
theorem c7_order_dependent :
    homogeneous_type [.pyBool true, .pyInt 1] = some false ∧
    homogeneous_type [.pyInt 1, .pyBool true] = some true := by decide

/-- C7 (amended): for a non-empty sequence, if the first element's exact
type is `int` or `float`, the result is `True` iff every element is an
instance of `int` or `float` (which admits `bool` and `numpy.float64`
via subclassing); otherwise the result is `True` iff every element is
an instance of the first element's exact type.  The two regimes differ,
so the result depends on which compatible element comes first. -/
theorem c7_homogeneous_characterization (x : PyObj) (xs : List PyObj) :
    ((typeOf x = .tInt ∨ typeOf x = .tFloat) →
      (homogeneous_type (x :: xs) = some true ↔
        ∀ y ∈ x :: xs, (isinst y .tInt || isinst y .tFloat) = true)) ∧
    (¬(typeOf x = .tInt ∨ typeOf x = .tFloat) →
      (homogeneous_type (x :: xs) = some true ↔
        ∀ y ∈ x :: xs, isinst y (typeOf x) = true)) := by
  constructor
  · rintro (h | h) <;>
      simp [homogeneous_type, h, List.all_eq_true, List.forall_mem_cons,
        isinst, pySubclass]
  · intro h
    push_neg at h
    obtain ⟨h1, h2⟩ := h
    have hb1 : (typeOf x == PyType.tInt) = false := by simp [h1]
    have hb2 : (typeOf x == PyType.tFloat) = false := by simp [h2]
    simp [homogeneous_type, hb1, hb2, List.all_eq_true, List.forall_mem_cons,
      isinst, pySubclass]

/-- C7 witness: the numeric-first regime at a concrete input. -/
theorem c7_homogeneous_characterization_witness :
    (typeOf (.pyInt 1) = .tInt ∨ typeOf (.pyInt 1) = .tFloat) ∧
    (homogeneous_type [.pyInt 1, .pyBool true] = some true ↔
      ∀ y ∈ [PyObj.pyInt 1, .pyBool true],
        (isinst y .tInt || isinst y .tFloat) = true) :=
  ⟨Or.inl rfl, (c7_homogeneous_characterization (.pyInt 1) [.pyBool true]).1 (Or.inl rfl)⟩

/-- C10: with no truthy rename target, a name starting with an
underscore is bound under `'.' + name[1:]` with a warning; any other
name is bound unchanged with no warning. -/
theorem c10_underscore_renaming (name : String) :
    (py_startswith name "_" = true →
      get_vars_newname none name = ("." ++ py_drop name 1, true)) ∧
    (py_startswith name "_" = false →
      get_vars_newname none name = (name, false)) := by
  constructor <;> intro h <;> simp [get_vars_newname, str_truthy, h]

/-- C10 witness: both branches at concrete names. -/
theorem c10_underscore_renaming_witness :
    (py_startswith "_x" "_" = true ∧ get_vars_newname none "_x" = (".x", true)) ∧
    (py_startswith "y" "_" = false ∧ get_vars_newname none "y" = ("y", false)) :=
  ⟨⟨by decide, by
      have h := (c10_underscore_renaming "_x").1 (by decide)
      simpa using h⟩,
   ⟨by decide, (c10_underscore_renaming "y").2 (by decide)⟩⟩

/-- C8: `load` is idempotent on the loaded-package state.  An
already-loaded package returns success with no install and no state
change; a recognized package not yet loaded submits exactly one install
snippet and is marked loaded; an unrecognized package warns and returns
failure without mutating the loaded set; and a second `load` of the
same name never submits another install. -/
theorem c8_load_idempotent (loaded : List String) (p : String) :
    (p ∈ loaded → load loaded p = ⟨true, loaded, [], []⟩) ∧
    (p ∉ loaded → p ∈ julia_install_package →
      load loaded p = ⟨true, p :: loaded, [p], []⟩) ∧
    (p ∉ loaded → p ∉ julia_install_package →
      load loaded p =
        ⟨false, loaded, [], ["Install of package " ++ p ++ " is not supported."]⟩) ∧
    (load (load loaded p).loaded p).installs = [] := by
  refine ⟨fun h => by simp [load, h], fun h1 h2 => by simp [load, h1, h2],
    fun h1 h2 => by simp [load, h1, h2], ?_⟩
  by_cases h1 : p ∈ loaded
  · simp [load, h1]
  · by_cases h2 : p ∈ julia_install_package
    · simp [load, h1, h2]
    · simp [load, h1, h2]

/-- C8 witness: first load of `feather` installs once, second load of
`feather` installs nothing. -/
theorem c8_load_idempotent_witness :
    ("feather" ∉ ([] : List String)) ∧ "feather" ∈ julia_install_package ∧
    load [] "feather" = ⟨true, ["feather"], ["feather"], []⟩ ∧
    (load (load [] "feather").loaded "feather").installs = [] :=
  ⟨by decide, by decide,
   ((c8_load_idempotent [] "feather").2.1 (by decide) (by decide)),
   (c8_load_idempotent [] "feather").2.2.2⟩

/-- The guest response claiming the feather package is required. -/
def require_feather : String := "\"SOS_JULIA_REQUIRE:feather\""

/-- C2 counterexample: on the constant response stream
`"SOS_JULIA_REQUIRE:feather"` the `while True` loop is still running
after 5 iterations, and once `feather` is in the loaded set one more
iteration reproduces the same state — `load` returns `True` for an
already-loaded package, so the same package is retried without bound
and the loop never exits. -/
theorem c2_same_package_retried_forever :
    put_vars_loop (fun _ => require_feather) [] 0 5 = none ∧
    put_vars_loop_step require_feather ["feather"] = .cont ["feather"] :=
  ⟨rfl, rfl⟩

/-- C2 (amended): the loop is retried on every recognized (or
already-loaded) `REQUIRE` sentinel with no per-package bound; it exits
whenever some response is not a sentinel accepted by `load` — in
particular, if the `k`-th response is a non-sentinel, the loop
terminates within `k + 1` iterations from any loaded state. -/
theorem c2_loop_exits_on_non_sentinel (responses : Nat → String) (k : Nat)
    (hk : sentinel_package (responses k) = none) :
    ∀ (fuel i : Nat) (loaded : List String), i ≤ k → k - i < fuel →
      put_vars_loop responses loaded i fuel ≠ none := by
  intro fuel
  induction fuel with
  | zero => intro i loaded _ h2; exact absurd h2 (Nat.not_lt_zero _)
  | succ f ih =>
    intro i loaded h1 h2
    by_cases hik : i = k
    · subst hik
      simp [put_vars_loop, put_vars_loop_step, hk]
    · have hlt : i < k := lt_of_le_of_ne h1 hik
      cases hstep : put_vars_loop_step (responses i) loaded with
      | brk e st => simp [put_vars_loop, hstep]
      | cont st =>
        simp only [put_vars_loop, hstep]
        exact ih (i + 1) st (by omega) (by omega)

/-- Response stream for the C2 witness: one accepted sentinel, then a
plain expression. -/
def c2_responses : Nat → String :=
  fun n => if n == 0 then require_feather else "42"

/-- C2 witness: with a non-sentinel second response the loop exits. -/
theorem c2_loop_exits_witness :
    sentinel_package (c2_responses 1) = none ∧
    put_vars_loop c2_responses [] 0 3 ≠ none :=
  ⟨by decide,
   c2_loop_exits_on_non_sentinel c2_responses 1 (by decide) 3 0 []
     (by omega) (by omega)⟩

theorem dict_insert_has_self (m : List (String × PyObj)) (k : String) (v : PyObj) :
    dict_has_key (dict_insert m k v) k = true := by
  unfold dict_insert
  by_cases h : dict_has_key m k
  · rw [if_pos h]
    unfold dict_has_key at h ⊢
    rw [List.any_map, List.any_eq_true] at *
    obtain ⟨kv, hmem, hk⟩ := h
    exact ⟨kv, hmem, by simp [Function.comp, hk]⟩
  · rw [if_neg h]
    unfold dict_has_key
    rw [List.any_append]
    simp

theorem dict_insert_preserves (m : List (String × PyObj)) (k k' : String)
    (v : PyObj) (h : dict_has_key m k' = true) :
    dict_has_key (dict_insert m k v) k' = true := by
  unfold dict_insert
  by_cases hk : dict_has_key m k
  · rw [if_pos hk]
    unfold dict_has_key at h ⊢
    rw [List.any_map, List.any_eq_true] at *
    obtain ⟨kv, hmem, hkv⟩ := h
    refine ⟨kv, hmem, ?_⟩
    by_cases he : (kv.1 == k) = true
    · have h1 : kv.1 = k := by simpa using he
      have h2 : kv.1 = k' := by simpa using hkv
      simp [Function.comp, he, ← h1, h2]
    · simp [Function.comp, he, hkv]
  · rw [if_neg hk]
    unfold dict_has_key at h ⊢
    rw [List.any_append]
    simp [h]

theorem put_vars_go_covers_all_items (env : PutEnv) (asVar : Option String) (fuel : Nat) :
    ∀ (todo loaded : List String) (res : List (String × PyObj))
      (warns : List String) (r : PutResult),
      put_vars_go env asVar fuel loaded todo res warns = some r →
      (∀ m, r.result = some m →
        (∀ k, dict_has_key res k = true → dict_has_key m k = true) ∧
        ∀ it ∈ todo, dict_has_key m (put_key asVar it) = true) ∧
      (r.result = none → r.warnings ≠ []) := by
  intro todo
  induction todo with
  | nil =>
    intro loaded res warns r hr
    simp only [put_vars_go, Option.some.injEq] at hr
    subst hr
    refine ⟨fun m hm => ?_, fun hnone => by simp at hnone⟩
    simp only [Option.some.injEq] at hm
    subst hm
    exact ⟨fun k hk => hk, fun it hit => by simp at hit⟩
  | cons item rest ih =>
    intro loaded res warns r hr
    simp only [put_vars_go] at hr
    split at hr
    · exact Option.noConfusion hr
    · split at hr
      · have spec := ih _ _ _ r hr
        refine ⟨fun m hm => ?_, spec.2⟩
        obtain ⟨hpres, hcov⟩ := spec.1 m hm
        refine ⟨fun k hk => hpres k (dict_insert_preserves _ _ _ _ hk), ?_⟩
        intro it hit
        rcases List.mem_cons.mp hit with hh | hh
        · subst hh; exact hpres _ (dict_insert_has_self _ _ _)
        · exact hcov it hh
      · simp only [Option.some.injEq] at hr
        subst hr
        exact ⟨fun m hm => by simp at hm, fun _ => by simp⟩

/-- C4: whenever `put_vars` returns at all, it never returns a partial
mapping — any returned dict contains an entry for every requested name,
and a decode failure yields the `None` sentinel together with a
warning. -/
theorem c4_batch_never_returns_subset (env : PutEnv) (items : List String)
    (asVar : Option String) (fuel : Nat) (r : PutResult)
    (hr : put_vars env items asVar fuel = some r) :
    (∀ m, r.result = some m →
      ∀ it ∈ items, dict_has_key m (put_key asVar it) = true) ∧
    (r.result = none → r.warnings ≠ []) := by
  unfold put_vars at hr
  by_cases hempty : items.isEmpty
  · rw [if_pos hempty] at hr
    simp only [Option.some.injEq] at hr
    subst hr
    refine ⟨fun m hm it hit => ?_, fun hnone => by simp at hnone⟩
    rw [List.isEmpty_iff] at hempty
    subst hempty
    simp at hit
  · rw [if_neg hempty] at hr
    have spec := put_vars_go_covers_all_items env asVar fuel items [] [] [] r hr
    exact ⟨fun m hm => (spec.1 m hm).2, spec.2⟩

/-- Session collaborators for the C4 witness: item `a` decodes, item `b`
fails host-side evaluation. -/
def put_env_fail : PutEnv :=
  ⟨fun item _ => if item == "a" then "7" else "bad",
   fun e => if e == "7" then some (.pyInt 7) else none⟩

/-- C4 witness: a two-item batch whose second item fails to decode
returns the `None` sentinel with a warning, not a partial mapping. -/
theorem c4_batch_never_returns_subset_witness :
    put_vars put_env_fail ["a", "b"] none 2 = some ⟨none, [put_fail_msg "bad"]⟩ ∧
    (PutResult.mk none [put_fail_msg "bad"]).warnings ≠ [] :=
  ⟨rfl,
   (c4_batch_never_returns_subset put_env_fail ["a", "b"] none 2
     ⟨none, [put_fail_msg "bad"]⟩ rfl).2 rfl⟩

/-- Each column surviving `repair_columns` is the original column when
homogeneous, and its text coercion when not. -/
theorem repair_columns_pointwise :
    ∀ (df df' : List (String × List PyObj)), repair_columns df = some df' →
      ∀ (n : String) (c : List PyObj), (n, c) ∈ df →
        (homogeneous_type c = some true → (n, c) ∈ df') ∧
        (homogeneous_type c = some false → (n, c.map coerce_to_text) ∈ df') := by
  intro df
  induction df with
  | nil => intro df' _ n c hmem; simp at hmem
  | cons hd tl ih =>
    obtain ⟨hn, hc0⟩ := hd
    intro df' hdf n c hmem
    simp only [repair_columns, List.mapM_cons] at hdf
    cases hc : coerce_column hc0 with
    | none => rw [hc] at hdf; simp at hdf
    | some c' =>
      rw [hc] at hdf
      cases htl : tl.mapM fun nc => (coerce_column nc.2).map fun c => (nc.1, c) with
      | none => rw [htl] at hdf; simp at hdf
      | some tl' =>
        rw [htl] at hdf
        have hdf' : df' = (hn, c') :: tl' := by
          simp at hdf
          exact hdf.symm
        subst hdf'
        rcases List.mem_cons.mp hmem with hh | hh
        · rw [Prod.mk.injEq] at hh
          obtain ⟨h1, h2⟩ := hh
          subst h1
          subst h2
          constructor
          · intro hhom
            have hcc : coerce_column c = some c := by
              simp [coerce_column, hhom]
            have he := Option.some.inj (hcc.symm.trans hc)
            rw [← he]
            exact List.mem_cons_self _ _
          · intro hhet
            have hcc : coerce_column c = some (c.map coerce_to_text) := by
              simp [coerce_column, hhet]
            have he := Option.some.inj (hcc.symm.trans hc)
            rw [he]
            exact List.mem_cons_self _ _
        · have hrec := ih tl' (by simpa [repair_columns] using htl) n c hh
          exact ⟨fun h => List.mem_cons_of_mem _ (hrec.1 h),
                 fun h => List.mem_cons_of_mem _ (hrec.2 h)⟩

/-- C6 (amended): with feather importable, a successful first staged
write stages the frame unchanged (no coercion); if the first write
fails, the repair pass coerces exactly the columns that fail
`homogeneous_type` to text — homogeneous columns are left untouched —
and the write is retried exactly once, a second failure surfacing as an
error. -/
theorem c6_repair_coerces_only_heterogeneous (env : Env)
    (df : List (String × List PyObj)) (hf : env.featherAvailable = true) :
    (env.writeOk df = true →
      julia_repr_dataframe env df = .ok (feather_read_expr env, df)) ∧
    (env.writeOk df = false → ∀ df', repair_columns df = some df' →
      (env.writeOk df' = true →
        julia_repr_dataframe env df = .ok (feather_read_expr env, df')) ∧
      (env.writeOk df' = false →
        julia_repr_dataframe env df = .error .writeError)) ∧
    (∀ df', repair_columns df = some df' →
      ∀ (n : String) (c : List PyObj), (n, c) ∈ df →
        (homogeneous_type c = some true → (n, c) ∈ df') ∧
        (homogeneous_type c = some false → (n, c.map coerce_to_text) ∈ df')) := by
  refine ⟨?_, ?_, repair_columns_pointwise df⟩
  · intro hw
    simp [julia_repr_dataframe, hf, hw]
  · intro hw df' hdf'
    constructor <;> intro hw' <;> simp [julia_repr_dataframe, hf, hw, hdf', hw']

/-- Staged-write environment for the C6 counterexample: the columnar
write succeeds exactly when every column is homogeneous (the failure
mode named by the spec). -/
def env_hetero : Env :=
  ⟨true, "tmp.feather", fun cols => cols.all fun nc => (homogeneous_type nc.2).getD false⟩

/-- A frame with one homogeneous integer column and one mixed column. -/
def df_hetero : List (String × List PyObj) :=
  [("a", [.pyInt 1, .pyInt 2]), ("b", [.pyInt 1, .pyStr "x"])]

/-- C6 counterexample: when the first write fails, the repair pass does
not coerce every column to text — the staged retry carries column `a`
still as integers, only the heterogeneous column `b` textified. -/
theorem c6_not_every_column_coerced :
    julia_repr_dataframe env_hetero df_hetero =
      .ok ("Feather.read(\"tmp.feather\")",
        [("a", [.pyInt 1, .pyInt 2]), ("b", [.pyStr "1", .pyStr "x"])]) ∧
    env_hetero.writeOk df_hetero = false := ⟨rfl, rfl⟩

/-- Environment whose staged writes always succeed, for the C6 witness. -/
def env_all_ok : Env := ⟨true, "t.feather", fun _ => true⟩

/-- C6 witness: a successful first write performs no coercion. -/
theorem c6_repair_witness :
    env_all_ok.featherAvailable = true ∧
    env_all_ok.writeOk [("a", [PyObj.pyInt 1])] = true ∧
    julia_repr_dataframe env_all_ok [("a", [.pyInt 1])] =
      .ok (feather_read_expr env_all_ok, [("a", [.pyInt 1])]) :=
  ⟨rfl, rfl,
   (c6_repair_coerces_only_heterogeneous env_all_ok [("a", [.pyInt 1])] rfl).1 rfl⟩

end SosJulia
